import Mathlib

/-!
Shallow embedding of the core fetch logic of the WFP-VAM google_data_bridges
repository (file data_bridges_repository_impl.py), together with theorems
checking the specification claims against it.

The remote transport and the token provider are external collaborators; they
are modelled as oracles: a function from the invocation index (0-based, in
order of invocation) to the outcome of that invocation, where an outcome is
either a success value or an HTTP-like status code carried by the raised
ApiException.  Sleeps are recorded as a list of the wait durations, in order.
-/

namespace DataBridges

/-- The status codes the source treats as retryable, the list
`[429, 500, 502, 503, 504]` appearing on lines 95, 124 and 142 of
data_bridges_repository_impl.py. -/
def retryableStatuses : List Nat := [429, 500, 502, 503, 504]

/-- The `EndpointType` enum: three members, each carrying a scope string
(the enum value), a list of accepted parameter names, and a description URL. -/
inductive EndpointType where
  | CURRENCY_USD_QUOTE
  | ECONOMIC_DATA_LIST
  | ECONOMIC_DATA_VALUES
deriving DecidableEq, Repr

/-- The `_value_` (scope string) of each `EndpointType` member. -/
def EndpointType.value : EndpointType → String
  | .CURRENCY_USD_QUOTE => "vamdatabridges_currency-usdindirectquotation_get"
  | .ECONOMIC_DATA_LIST => "vamdatabridges_economicdata-indicatorlist_get"
  | .ECONOMIC_DATA_VALUES => "vamdatabridges_economicdata_get"

/-- The accepted parameter names of each `EndpointType` member. -/
def EndpointType.params : EndpointType → List String
  | .CURRENCY_USD_QUOTE => ["country_iso3", "currency_name", "page", "env", "format"]
  | .ECONOMIC_DATA_LIST => ["page", "indicator_name", "iso3", "env", "format"]
  | .ECONOMIC_DATA_VALUES =>
      ["indicator_name", "page", "iso3", "start_date", "end_date", "env", "format"]

/-- Errors that escape the fetch machinery: an `ApiException` carrying a
status code, or the generic `Exception("Max retries reached")` raised after a
retry budget is exhausted (the spec calls the latter `ExhaustedRetries`). -/
inductive FetchError where
  | apiError (status : Nat)
  | exhaustedRetries
deriving DecidableEq, Repr

/-- Outcome of one run of a backoff retry loop: the final result, the list of
sleep durations performed (in order), and how many oracle invocations the
loop itself made. -/
structure RetryOutcome (α : Type) where
  result : Except FetchError α
  waits : List Nat
  calls : Nat

/-- The common shape of the two retry loops in the source
(`_retry_with_backoff`, lines 134-148, and the loop of
`_refresh_access_token`, lines 88-104): `remaining` iterations are left,
the current 0-based loop index is `attempt`, and `callIdx` indexes into the
oracle.  Each iteration invokes the oracle; on success it returns, on a
retryable status it sleeps `2 ^ attempt` (`backoff_factor ** attempt`) and
continues — also when this was the last iteration, exactly as the Python
loop sleeps before discovering the range is exhausted — and on any other
status it re-raises.  When the loop ends without success it raises the
max-retries exception. -/
def backoffLoop (op : Nat → Except Nat α) (callIdx attempt remaining : Nat) :
    RetryOutcome α :=
  match remaining with
  | 0 => ⟨.error .exhaustedRetries, [], 0⟩
  | r + 1 =>
    match op callIdx with
    | .ok v => ⟨.ok v, [], 1⟩
    | .error s =>
      if s ∈ retryableStatuses then
        let rest := backoffLoop op (callIdx + 1) (attempt + 1) r
        ⟨rest.result, 2 ^ attempt :: rest.waits, rest.calls + 1⟩
      else
        ⟨.error (.apiError s), [], 1⟩

/-- `DataBridgesRepositoryImpl._retry_with_backoff` (lines 134-148):
`max_retries = 10`, `backoff_factor = 2`.  `startIdx` is the oracle index of
the first invocation the loop makes (the loop is entered after earlier
invocations have already failed). -/
def retry_with_backoff (op : Nat → Except Nat α) (startIdx : Nat) : RetryOutcome α :=
  backoffLoop op startIdx 0 10

/-- `DataBridgesRepositoryImpl._refresh_access_token` (lines 84-106):
`max_retries = 5`, `backoff_factor = 2`; the token-provider oracle `rop`
gives the outcome of each provider call.  On a non-retryable status the
original exception is re-raised at once; after five retryable failures the
max-retries exception is raised. -/
def refresh_access_token (rop : Nat → Except Nat Unit) : RetryOutcome Unit :=
  backoffLoop rop 0 0 5

/-- Observable trace of one `fetch_data_one_page` call: its result
(`Except.ok none` models the Python `return None` on an invalid endpoint),
all sleep durations in order, the number of endpoint-method invocations, the
number of `_refresh_access_token` calls, the number of times the ApiClient
was rebuilt, and whether the invalid-endpoint error was logged. -/
structure FetchTrace (α : Type) where
  result : Except FetchError (Option α)
  waits : List Nat
  opCalls : Nat
  refreshCalls : Nat
  clientRebuilds : Nat
  invalidLogged : Bool

/-- `DataBridgesRepositoryImpl.fetch_data_one_page` (lines 108-132).
`endpointDict` models `self.endpoint_dict.get(endpoint)`: it maps an
endpoint to the oracle of its remote method, or to `none` when the endpoint
is not registered (then the error is logged and `None` is returned, line
110-112).  Otherwise the method is invoked (oracle index 0).  On status 401
the token is refreshed, the client rebuilt, and the call retried exactly
once (oracle index 1); a failure of that retry, or of the refresh itself,
propagates.  On a retryable status the `_retry_with_backoff` loop runs
starting at oracle index 1.  Any other status re-raises at once. -/
def fetch_data_one_page (endpointDict : EndpointType → Option (Nat → Except Nat α))
    (refreshOp : Nat → Except Nat Unit) (endpoint : EndpointType) : FetchTrace α :=
  match endpointDict endpoint with
  | none => ⟨.ok none, [], 0, 0, 0, true⟩
  | some op =>
    match op 0 with
    | .ok v => ⟨.ok (some v), [], 1, 0, 0, false⟩
    | .error s =>
      if s = 401 then
        let refresh := refresh_access_token refreshOp
        match refresh.result with
        | .error e => ⟨.error e, refresh.waits, 1, 1, 0, false⟩
        | .ok _ =>
          match op 1 with
          | .ok v => ⟨.ok (some v), refresh.waits, 2, 1, 1, false⟩
          | .error s2 => ⟨.error (.apiError s2), refresh.waits, 2, 1, 1, false⟩
      else if s ∈ retryableStatuses then
        let retry := retry_with_backoff op 1
        ⟨retry.result.map some, retry.waits, retry.calls + 1, 0, 0, false⟩
      else
        ⟨.error (.apiError s), [], 1, 0, 0, false⟩

/-- A transport page response as far as `get_total_pages` inspects it:
`total_items` is `some t` when the response object has a `total_items`
attribute with value `t`, and `none` when `hasattr(res, "total_items")`
is false (also covering the `None` response of an invalid endpoint). -/
structure PageResponse where
  total_items : Option Nat
deriving DecidableEq, Repr

/-- `CURRENT_MAX_DATA_BRIDGES_PAGE_SIZE` (line 67). -/
def CURRENT_MAX_DATA_BRIDGES_PAGE_SIZE : Nat := 1000

/-- `DataBridgesRepositoryImpl.get_total_pages` (lines 176-185): probe one
page; if the response has a `total_items` attribute, return
`(total_items + page_size - 1) // page_size` with `page_size` taken from
`params.get("page_size", 1000)`; otherwise return 1. -/
def get_total_pages (res : PageResponse) (page_size_param : Option Nat) : Nat :=
  match res.total_items with
  | some total_items =>
    let page_size := page_size_param.getD CURRENT_MAX_DATA_BRIDGES_PAGE_SIZE
    (total_items + page_size - 1) / page_size
  | none => 1

/-- The test on line 163 of the source, `if "page" not in [params]:`.
The string is tested for membership in the one-element list whose sole
element is the params dict itself — not in the dict's key set — and a string
never compares equal to a dict, so the test is true for every params value,
whether or not a page key is present. -/
def pageKeyNotInListParams (_pageParam : Option Nat) : Bool := true

/-- The list of page numbers for which `fetch_all_data_bridges_data`
(lines 157-174) submits a fetch task: after the line-163 test (see
`pageKeyNotInListParams`) possibly resets the page key to 1, tasks are
submitted for `range(params["page"], _total_pages + 1)`.
`pageParam` is the page value in the caller's params, if any. -/
def pages_spawned (pageParam : Option Nat) (total_pages : Nat) : List Nat :=
  let page := if pageKeyNotInListParams pageParam then 1 else pageParam.getD 1
  List.range' page (total_pages + 1 - page)

/-- The fan-out the specification text describes: one task per page from the
caller-specified starting page (default 1) through the computed last page.
Stated separately from `pages_spawned` so the two can be compared. -/
def pages_spawned_specified (pageParam : Option Nat) (total_pages : Nat) : List Nat :=
  let page := pageParam.getD 1
  List.range' page (total_pages + 1 - page)

/-- `DataBridgesRepositoryImpl.fetch_all_data_bridges_data` (lines 157-174)
at the level the claims need: compute the total page count from the probe
response, spawn one task per page in `pages_spawned`, and concatenate the
row lists the per-page fetches produce.  `pageRows` gives the normalized
rows of each page. -/
def fetch_all_data_bridges_data {ρ : Type} (pageRows : Nat → List ρ)
    (pageParam : Option Nat) (probe : PageResponse) (page_size_param : Option Nat) :
    List ρ :=
  let total_pages := get_total_pages probe page_size_param
  ((pages_spawned pageParam total_pages).map pageRows).flatten

/-- A page-result item as `normalize_items` distinguishes them: an object
with a `__dict__` of attribute-name/value pairs, or a primitive value
(which has no `__dict__`). -/
inductive Item where
  | obj (attrs : List (String × Int))
  | prim (v : Int)
deriving DecidableEq, Repr

/-- `hasattr(item, "__dict__")`. -/
def Item.hasDict : Item → Bool
  | .obj _ => true
  | .prim _ => false

/-- `item.__dict__`: the attribute mapping when it exists, `none` when
accessing it would raise `AttributeError`. -/
def Item.dict : Item → Option (List (String × Int))
  | .obj attrs => some attrs
  | .prim _ => none

/-- The attribute mapping of an item, with `[]` for a primitive (used only
to state results about lists all of whose items have a `__dict__`). -/
def Item.attrList : Item → List (String × Int)
  | .obj attrs => attrs
  | .prim _ => []

/-- A Python value as `normalize_items` distinguishes them: a list of items,
or something that is not a list. -/
inductive PyVal where
  | list (xs : List Item)
  | scalar (v : Int)
deriving DecidableEq, Repr

/-- Result of `normalize_items`: either the list comprehension
`[obj.__dict__ for obj in response_items]`, or the input passed through
unchanged. -/
inductive Normalized where
  | dicts (ds : List (List (String × Int)))
  | unchanged (v : PyVal)
deriving DecidableEq, Repr

/-- The comprehension `[obj.__dict__ for obj in response_items]`: evaluated
left to right, producing `none` if some element has no `__dict__` (in Python
the access then raises `AttributeError`). -/
def dictComprehension : List Item → Option (List (List (String × Int)))
  | [] => some []
  | x :: xs =>
    match x.dict, dictComprehension xs with
    | some d, some ds => some (d :: ds)
    | _, _ => none

/-- `DataBridgesRepositoryImpl.normalize_items` (lines 196-200): when the
input is a list, is truthy (non-empty), and its first element has a
`__dict__`, return the list of every element's `__dict__` (an element
without one makes the comprehension raise `AttributeError`, modelled as
`Except.error ()`); otherwise return the input unchanged. -/
def normalize_items (response_items : PyVal) : Except Unit Normalized :=
  match response_items with
  | .list (x :: xs) =>
    if x.hasDict then
      match dictComprehension (x :: xs) with
      | some ds => .ok (.dicts ds)
      | none => .error ()
    else .ok (.unchanged (.list (x :: xs)))
  | v => .ok (.unchanged v)

/-- Whether a `normalize_items` outcome is the input passed through
unchanged (as opposed to the flattening branch having been taken). -/
def Normalized.isUnchanged : Except Unit Normalized → Bool
  | .ok (.unchanged _) => true
  | _ => false

/-! ## Helper lemmas about the backoff loop -/

theorem backoffLoop_zero {α : Type} (op : Nat → Except Nat α) (c a : Nat) :
    backoffLoop op c a 0 = ⟨.error .exhaustedRetries, [], 0⟩ := rfl

theorem backoffLoop_ok {α : Type} (op : Nat → Except Nat α) (c a r : Nat) (v : α)
    (h : op c = .ok v) : backoffLoop op c a (r + 1) = ⟨.ok v, [], 1⟩ := by
  simp [backoffLoop, h]

theorem backoffLoop_retryable {α : Type} {op : Nat → Except Nat α} {c s : Nat} (a r : Nat)
    (h : op c = .error s) (hs : s ∈ retryableStatuses) :
    backoffLoop op c a (r + 1) =
      ⟨(backoffLoop op (c + 1) (a + 1) r).result,
        2 ^ a :: (backoffLoop op (c + 1) (a + 1) r).waits,
        (backoffLoop op (c + 1) (a + 1) r).calls + 1⟩ := by
  simp [backoffLoop, h, hs]

theorem backoffLoop_fatal {α : Type} {op : Nat → Except Nat α} {c s : Nat} (a r : Nat)
    (h : op c = .error s) (hs : s ∉ retryableStatuses) :
    backoffLoop op c a (r + 1) = ⟨.error (.apiError s), [], 1⟩ := by
  simp [backoffLoop, h, hs]

theorem range_map_pow_succ (a k : Nat) :
    (List.range (k + 1)).map (fun i => 2 ^ (a + i)) =
      2 ^ a :: (List.range k).map (fun i => 2 ^ (a + 1 + i)) := by
  rw [List.range_succ_eq_map]
  simp only [List.map_cons, List.map_map, Nat.add_zero]
  refine congrArg (2 ^ a :: ·) (List.map_congr_left fun i _ => ?_)
  simp only [Function.comp_apply, Nat.succ_eq_add_one]
  congr 1
  omega

/-- When every oracle invocation fails with the same retryable status, the
loop runs all its iterations, sleeping `2 ^ attempt` after each one, and
ends with the max-retries error. -/
theorem backoffLoop_allFail {α : Type} {op : Nat → Except Nat α} {s : Nat}
    (hs : s ∈ retryableStatuses) (hop : ∀ n, op n = .error s) :
    ∀ r c a, backoffLoop op c a r =
      ⟨.error .exhaustedRetries, (List.range r).map (fun i => 2 ^ (a + i)), r⟩ := by
  intro r
  induction r with
  | zero => intro c a; simp [backoffLoop_zero]
  | succ r ih =>
    intro c a
    rw [backoffLoop_retryable a r (hop c) hs, ih (c + 1) (a + 1), range_map_pow_succ]

/-- When the first `k` oracle invocations made by the loop fail with the same
retryable status and the next succeeds (with `k` strictly below the iteration
budget), the loop returns the success after `k + 1` invocations, having slept
`2 ^ attempt` after each of the `k` failures. -/
theorem backoffLoop_failThenOk {α : Type} {op : Nat → Except Nat α} {s : Nat} {v : α}
    (hs : s ∈ retryableStatuses) :
    ∀ k c a r, k < r → (∀ n, n < k → op (c + n) = .error s) → op (c + k) = .ok v →
      backoffLoop op c a r =
        ⟨.ok v, (List.range k).map (fun i => 2 ^ (a + i)), k + 1⟩ := by
  intro k
  induction k with
  | zero =>
    intro c a r hr hfail hok
    obtain ⟨r', rfl⟩ : ∃ r', r = r' + 1 := ⟨r - 1, by omega⟩
    rw [backoffLoop_ok op c a r' v (by simpa using hok)]
    simp
  | succ k ih =>
    intro c a r hr hfail hok
    obtain ⟨r', rfl⟩ : ∃ r', r = r' + 1 := ⟨r - 1, by omega⟩
    rw [backoffLoop_retryable a r' (by simpa using hfail 0 (by omega)) hs,
      ih (c + 1) (a + 1) r' (by omega)
        (fun n hn => by rw [show c + 1 + n = c + (n + 1) by omega]; exact hfail (n + 1) (by omega))
        (by rw [show c + 1 + k = c + (k + 1) by omega]; exact hok),
      range_map_pow_succ]

/-- Reduction of `fetch_data_one_page` when the first invocation fails with a
retryable, non-401 status: the call is handed to `_retry_with_backoff`. -/
theorem fetch_retryable_reduction {α : Type}
    {endpointDict : EndpointType → Option (Nat → Except Nat α)}
    {op : Nat → Except Nat α} {refreshOp : Nat → Except Nat Unit} {ep : EndpointType}
    {s : Nat} (hd : endpointDict ep = some op) (h0 : op 0 = .error s)
    (h401 : s ≠ 401) (hs : s ∈ retryableStatuses) :
    fetch_data_one_page endpointDict refreshOp ep =
      ⟨(retry_with_backoff op 1).result.map some, (retry_with_backoff op 1).waits,
        (retry_with_backoff op 1).calls + 1, 0, 0, false⟩ := by
  simp [fetch_data_one_page, hd, h0, h401, hs]

/-! ## Claim theorems -/

/-- C1 (amended): a page fetch whose remote operation raises status 429 on
its first five invocations and succeeds on the sixth returns the successful
result, having waited backoff delays of 1, 2, 4, 8 time units: the first
retry is issued immediately after the initial failure (which happens before
the backoff loop is entered), and a wait of `2 ^ attempt` precedes each
subsequent retry, so five failures produce four waits. -/
theorem c1_five_429_then_success {α : Type}
    (endpointDict : EndpointType → Option (Nat → Except Nat α))
    (op : Nat → Except Nat α) (refreshOp : Nat → Except Nat Unit) (ep : EndpointType)
    (v : α) (hd : endpointDict ep = some op)
    (hfail : ∀ n, n < 5 → op n = Except.error 429) (hok : op 5 = Except.ok v) :
    (fetch_data_one_page endpointDict refreshOp ep).result = .ok (some v) ∧
    (fetch_data_one_page endpointDict refreshOp ep).waits = [1, 2, 4, 8] := by
  have hb : retry_with_backoff op 1 =
      ⟨.ok v, (List.range 4).map (fun i => 2 ^ (0 + i)), 5⟩ :=
    backoffLoop_failThenOk (by decide) 4 1 0 10 (by omega)
      (fun n hn => hfail (1 + n) (by omega)) hok
  rw [fetch_retryable_reduction hd (hfail 0 (by omega)) (by decide) (by decide), hb]
  exact ⟨rfl, rfl⟩

/-- Witness for C1: a concrete operation raising 429 on invocations 0-4 and
succeeding on invocation 5. -/
theorem c1_witness :
    (fetch_data_one_page
        (fun _ => some fun n => if n < 5 then Except.error 429 else Except.ok (7 : Nat))
        (fun _ => Except.ok ()) EndpointType.ECONOMIC_DATA_LIST).result = .ok (some 7) ∧
    (fetch_data_one_page
        (fun _ => some fun n => if n < 5 then Except.error 429 else Except.ok (7 : Nat))
        (fun _ => Except.ok ()) EndpointType.ECONOMIC_DATA_LIST).waits = [1, 2, 4, 8] :=
  c1_five_429_then_success _ _ _ _ 7 rfl (fun _ hn => if_pos hn) rfl

/-- Counterexample to C1 as stated: with status 429 raised on exactly the
first five invocations and success on the sixth, the fetch does succeed but
the waits performed are [1, 2, 4, 8], not [1, 2, 4, 8, 16]. -/
theorem c1_counterexample :
    (fetch_data_one_page
        (fun _ => some fun n => if n < 5 then Except.error 429 else Except.ok (0 : Nat))
        (fun _ => Except.ok ()) EndpointType.CURRENCY_USD_QUOTE).result = .ok (some 0) ∧
    (fetch_data_one_page
        (fun _ => some fun n => if n < 5 then Except.error 429 else Except.ok (0 : Nat))
        (fun _ => Except.ok ()) EndpointType.CURRENCY_USD_QUOTE).waits = [1, 2, 4, 8] ∧
    (fetch_data_one_page
        (fun _ => some fun n => if n < 5 then Except.error 429 else Except.ok (0 : Nat))
        (fun _ => Except.ok ()) EndpointType.CURRENCY_USD_QUOTE).waits ≠ [1, 2, 4, 8, 16] :=
  ⟨rfl, rfl, by decide⟩

/-- C2: a page fetch whose remote operation raises status 429 on every
invocation makes 10 invocations inside the `_retry_with_backoff` loop (11
in total, counting the initial one that routed into the loop) and fails
with the max-retries exception (`ExhaustedRetries`). -/
theorem c2_persistent_429_exhausts_retries {α : Type}
    (endpointDict : EndpointType → Option (Nat → Except Nat α))
    (op : Nat → Except Nat α) (refreshOp : Nat → Except Nat Unit) (ep : EndpointType)
    (hd : endpointDict ep = some op) (hop : ∀ n, op n = Except.error 429) :
    (retry_with_backoff op 1).calls = 10 ∧
    (fetch_data_one_page endpointDict refreshOp ep).result = .error .exhaustedRetries ∧
    (fetch_data_one_page endpointDict refreshOp ep).opCalls = 11 := by
  have hb : retry_with_backoff op 1 =
      ⟨.error .exhaustedRetries, (List.range 10).map (fun i => 2 ^ (0 + i)), 10⟩ :=
    backoffLoop_allFail (by decide) hop 10 1 0
  refine ⟨by rw [hb], ?_, ?_⟩
  · rw [fetch_retryable_reduction hd (hop 0) (by decide) (by decide), hb]
    rfl
  · rw [fetch_retryable_reduction hd (hop 0) (by decide) (by decide), hb]

/-- Witness for C2: the operation that raises 429 on every invocation. -/
theorem c2_witness :
    (retry_with_backoff (fun _ => (Except.error 429 : Except Nat Nat)) 1).calls = 10 ∧
    (fetch_data_one_page (fun _ => some fun _ => (Except.error 429 : Except Nat Nat))
        (fun _ => Except.ok ()) EndpointType.CURRENCY_USD_QUOTE).result =
      .error .exhaustedRetries ∧
    (fetch_data_one_page (fun _ => some fun _ => (Except.error 429 : Except Nat Nat))
        (fun _ => Except.ok ()) EndpointType.CURRENCY_USD_QUOTE).opCalls = 11 :=
  c2_persistent_429_exhausts_retries _ _ _ _ rfl (fun _ => rfl)

/-- C5: a page fetch whose remote operation first raises status 401
triggers exactly one token refresh, rebuilds the client once, and retries
the call exactly once; if the retry succeeds the fetch succeeds, and if the
retry fails with any status that second failure propagates with no further
refresh or invocation. -/
theorem c5_single_refresh_on_401 {α : Type}
    (endpointDict : EndpointType → Option (Nat → Except Nat α))
    (op : Nat → Except Nat α) (refreshOp : Nat → Except Nat Unit) (ep : EndpointType)
    (hd : endpointDict ep = some op) (h0 : op 0 = Except.error 401)
    (hr : refreshOp 0 = Except.ok ()) :
    (∀ v : α, op 1 = Except.ok v →
        fetch_data_one_page endpointDict refreshOp ep = ⟨.ok (some v), [], 2, 1, 1, false⟩) ∧
    (∀ s2 : Nat, op 1 = Except.error s2 →
        fetch_data_one_page endpointDict refreshOp ep =
          ⟨.error (.apiError s2), [], 2, 1, 1, false⟩) := by
  have hrefresh : refresh_access_token refreshOp = ⟨.ok (), [], 1⟩ :=
    backoffLoop_ok refreshOp 0 0 4 () hr
  constructor
  · intro v h1
    simp [fetch_data_one_page, hd, h0, hrefresh, h1]
  · intro s2 h1
    simp [fetch_data_one_page, hd, h0, hrefresh, h1]

/-- Witness for C5: one operation that gives 401 then succeeds, and one that
gives 401 twice; the token provider succeeds at once. -/
theorem c5_witness :
    fetch_data_one_page
        (fun _ => some fun n => if n = 0 then Except.error 401 else Except.ok (3 : Nat))
        (fun _ => Except.ok ()) EndpointType.CURRENCY_USD_QUOTE =
      ⟨.ok (some 3), [], 2, 1, 1, false⟩ ∧
    fetch_data_one_page (fun _ => some fun _ => (Except.error 401 : Except Nat Nat))
        (fun _ => Except.ok ()) EndpointType.CURRENCY_USD_QUOTE =
      ⟨.error (.apiError 401), [], 2, 1, 1, false⟩ :=
  ⟨(c5_single_refresh_on_401 _ _ _ _ rfl rfl rfl).1 3 rfl,
   (c5_single_refresh_on_401 _ _ _ _ rfl rfl rfl).2 401 rfl⟩

/-- C6: token refresh against a provider that persistently raises 503 makes
exactly 5 provider calls, waiting 1, 2, 4, 8, 16 time units, then fails with
the max-retries exception; against a provider raising a non-retryable status
it fails immediately after a single call, with no wait. -/
theorem c6_refresh_backoff_schedule (rop : Nat → Except Nat Unit) :
    ((∀ n, rop n = Except.error 503) →
        refresh_access_token rop = ⟨.error .exhaustedRetries, [1, 2, 4, 8, 16], 5⟩) ∧
    (∀ s, s ∉ retryableStatuses → rop 0 = Except.error s →
        refresh_access_token rop = ⟨.error (.apiError s), [], 1⟩) := by
  constructor
  · intro hop
    exact backoffLoop_allFail (by decide) hop 5 0 0
  · intro s hs h0
    exact backoffLoop_fatal 0 4 h0 hs

/-- Witness for C6: a provider raising 503 forever, and one raising 400. -/
theorem c6_witness :
    refresh_access_token (fun _ => Except.error 503) =
      ⟨.error .exhaustedRetries, [1, 2, 4, 8, 16], 5⟩ ∧
    refresh_access_token (fun _ => Except.error 400) = ⟨.error (.apiError 400), [], 1⟩ :=
  ⟨(c6_refresh_backoff_schedule _).1 (fun _ => rfl),
   (c6_refresh_backoff_schedule _).2 400 (by decide) rfl⟩

/-- C8: a fetch for an endpoint that is not registered in the endpoint
dictionary logs the invalid endpoint and returns `None` (modelled as
`Except.ok none`, an absent result rather than a raised error), making no
remote invocation and no refresh. -/
theorem c8_invalid_endpoint_returns_none {α : Type}
    (endpointDict : EndpointType → Option (Nat → Except Nat α))
    (refreshOp : Nat → Except Nat Unit) (ep : EndpointType)
    (hd : endpointDict ep = none) :
    fetch_data_one_page endpointDict refreshOp ep = ⟨.ok none, [], 0, 0, 0, true⟩ := by
  simp [fetch_data_one_page, hd]

/-- Witness for C8: the empty endpoint dictionary. -/
theorem c8_witness :
    fetch_data_one_page (fun _ => (none : Option (Nat → Except Nat Nat)))
        (fun _ => Except.ok ()) EndpointType.ECONOMIC_DATA_VALUES =
      ⟨.ok none, [], 0, 0, 0, true⟩ :=
  c8_invalid_endpoint_returns_none _ _ _ rfl

/-- C3 (documents the line-163 defect): with a caller-specified starting
page 3 and 5 computed total pages, the code submits tasks for pages
1 through 5 — the `"page" not in [params]` test is always true, so the
starting page is reset to 1 — whereas the behavior the specification
describes submits tasks for pages 3 through 5 only. -/
theorem c3_start_page_always_reset :
    pages_spawned (some 3) 5 = [1, 2, 3, 4, 5] ∧
    pages_spawned_specified (some 3) 5 = [3, 4, 5] ∧
    pages_spawned (some 3) 5 ≠ pages_spawned_specified (some 3) 5 := by
  decide

/-- Counterexample to C4 as stated: when the probed page reports
`total_items = 0`, the computed page count is `(0 + 1000 - 1) / 1000 = 0`,
which is not at least 1. -/
theorem c4_counterexample :
    get_total_pages ⟨some 0⟩ none = 0 ∧ ¬ 1 ≤ get_total_pages ⟨some 0⟩ none := by
  decide

/-- C4 (amended): when the probed page reports a total item count of zero,
the computed page count is 0 (not at least 1), and the overall result is
still an empty row set: the task loop `range(1, 0 + 1)` is empty, so no page
task is submitted and the concatenation is empty, with no crash in the
page-count computation. -/
theorem c4_zero_items_empty_result {ρ : Type} (pageRows : Nat → List ρ)
    (pageParam : Option Nat) (ps : Option Nat) (hps : 0 < ps.getD 1000) :
    get_total_pages ⟨some 0⟩ ps = 0 ∧
    fetch_all_data_bridges_data pageRows pageParam ⟨some 0⟩ ps = [] := by
  have h0 : get_total_pages ⟨some 0⟩ ps = 0 := by
    simp only [get_total_pages, CURRENT_MAX_DATA_BRIDGES_PAGE_SIZE]
    exact Nat.div_eq_of_lt (by omega)
  refine ⟨h0, ?_⟩
  simp [fetch_all_data_bridges_data, h0, pages_spawned, pageKeyNotInListParams]

/-- Witness for C4: zero items with the default page size. -/
theorem c4_witness :
    0 < (none : Option Nat).getD 1000 ∧
    get_total_pages ⟨some 0⟩ none = 0 ∧
    fetch_all_data_bridges_data (fun p => [p]) none ⟨some 0⟩ none = [] :=
  ⟨by decide, c4_zero_items_empty_result (fun p => [p]) none none (by decide)⟩

/-- `(t + ps - 1) / ps` is the ceiling of the rational `t / ps`. -/
theorem add_pred_div_eq_ceil (t ps : Nat) (hps : 0 < ps) :
    (t + ps - 1) / ps = ⌈(t : ℚ) / (ps : ℚ)⌉₊ := by
  have hq : (0 : ℚ) < ps := by exact_mod_cast hps
  have key1 : ∀ c : ℕ, (t + ps - 1) / ps ≤ c ↔ t ≤ ps * c := by
    intro c
    rw [← Nat.ceilDiv_eq_add_pred_div]
    exact ceilDiv_le_iff_le_mul hps
  have key2 : ∀ c : ℕ, ⌈(t : ℚ) / (ps : ℚ)⌉₊ ≤ c ↔ t ≤ ps * c := by
    intro c
    rw [Nat.ceil_le, div_le_iff₀ hq, mul_comm]
    exact_mod_cast Iff.rfl
  exact Nat.le_antisymm ((key1 _).2 ((key2 _).1 le_rfl)) ((key2 _).2 ((key1 _).1 le_rfl))

/-- C7: for a response carrying a total-item count, `get_total_pages`
returns the ceiling of `total_items / page_size`, with `page_size` taken
from the params when overridden and 1000 otherwise — in particular 3 for
2500 items and 1 for 1000 items at the default page size — and for a
response with no total-item attribute it returns 1. -/
theorem c7_total_pages_is_ceiling :
    (∀ t ps : Nat, 0 < ps →
        get_total_pages ⟨some t⟩ (some ps) = ⌈(t : ℚ) / (ps : ℚ)⌉₊) ∧
    (∀ t : Nat, get_total_pages ⟨some t⟩ none = ⌈(t : ℚ) / (1000 : ℚ)⌉₊) ∧
    get_total_pages ⟨some 2500⟩ none = 3 ∧
    get_total_pages ⟨some 1000⟩ none = 1 ∧
    (∀ ps : Option Nat, get_total_pages ⟨none⟩ ps = 1) := by
  refine ⟨fun t ps hps => ?_, fun t => ?_, by decide, by decide, fun ps => rfl⟩
  · simpa [get_total_pages] using add_pred_div_eq_ceil t ps hps
  · simpa [get_total_pages, CURRENT_MAX_DATA_BRIDGES_PAGE_SIZE] using
      add_pred_div_eq_ceil t 1000 (by omega)

/-- Witness for C7: an overridden page size of 500. -/
theorem c7_witness :
    0 < 500 ∧ get_total_pages ⟨some 2500⟩ (some 500) = ⌈(2500 : ℚ) / (500 : ℚ)⌉₊ :=
  ⟨by decide, c7_total_pages_is_ceiling.1 2500 500 (by decide)⟩

/-- When every item of a list has a `__dict__`, the comprehension
`[obj.__dict__ for obj in items]` produces exactly the list of their
attribute mappings. -/
theorem dictComprehension_of_allObj :
    ∀ l : List Item, (∀ y ∈ l, y.hasDict = true) →
      dictComprehension l = some (l.map Item.attrList) := by
  intro l
  induction l with
  | nil => intro _; rfl
  | cons y l ih =>
    intro h
    have hy : Item.dict y = some y.attrList := by
      cases y with
      | obj attrs => rfl
      | prim v => exact absurd (h _ (List.mem_cons_self _ _)) (by simp [Item.hasDict])
    simp [dictComprehension, hy, ih fun z hz => h z (List.mem_cons_of_mem _ hz)]

/-- C9: normalizing a non-empty list all of whose items carry an attribute
dictionary yields exactly one flat mapping per item, namely each item's own
attribute mapping; normalizing a list of primitive items returns it
unchanged. -/
theorem c9_normalize_flattens_attribute_items :
    (∀ (x : Item) (xs : List Item), (∀ y ∈ x :: xs, y.hasDict = true) →
        normalize_items (.list (x :: xs)) = .ok (.dicts ((x :: xs).map Item.attrList)) ∧
        ((x :: xs).map Item.attrList).length = (x :: xs).length) ∧
    (∀ xs : List Item, (∀ y ∈ xs, y.hasDict = false) →
        normalize_items (.list xs) = .ok (.unchanged (.list xs))) := by
  constructor
  · intro x xs h
    refine ⟨?_, by simp⟩
    simp [normalize_items, h x (List.mem_cons_self _ _), dictComprehension_of_allObj _ h]
  · intro xs h
    cases xs with
    | nil => rfl
    | cons x xs => simp [normalize_items, h x (List.mem_cons_self _ _)]

/-- Witness for C9: a two-object list and a two-primitive list. -/
theorem c9_witness :
    normalize_items (.list [Item.obj [("price", 5)], Item.obj []]) =
      .ok (.dicts [[("price", 5)], []]) ∧
    normalize_items (.list [Item.prim 1, Item.prim 2]) =
      .ok (.unchanged (.list [Item.prim 1, Item.prim 2])) :=
  ⟨(c9_normalize_flattens_attribute_items.1 _ _ (by decide)).1,
   c9_normalize_flattens_attribute_items.2 _ (by decide)⟩

/-- C10: `normalize_items` passes through unchanged every input that is not
a list, the empty list, and every non-empty list whose first element has no
attribute dictionary; and whether it flattens or passes through is decided
by the first element alone — the elements after the first never change the
decision. -/
theorem c10_decision_depends_on_first_element :
    (∀ v : Int, normalize_items (.scalar v) = .ok (.unchanged (.scalar v))) ∧
    normalize_items (.list []) = .ok (.unchanged (.list [])) ∧
    (∀ (x : Item) (xs : List Item), x.hasDict = false →
        normalize_items (.list (x :: xs)) = .ok (.unchanged (.list (x :: xs)))) ∧
    (∀ (x : Item) (xs ys : List Item),
        Normalized.isUnchanged (normalize_items (.list (x :: xs))) =
          Normalized.isUnchanged (normalize_items (.list (x :: ys)))) := by
  refine ⟨fun v => rfl, rfl, fun x xs hx => by simp [normalize_items, hx],
    fun x xs ys => ?_⟩
  cases hx : x.hasDict with
  | false => simp [normalize_items, hx, Normalized.isUnchanged]
  | true =>
    simp only [normalize_items, hx, if_true]
    cases h1 : dictComprehension (x :: xs) <;> cases h2 : dictComprehension (x :: ys) <;>
      simp [Normalized.isUnchanged, h1, h2]

/-- Witness for C10: a scalar, the empty list, a primitive-headed list, and
two lists sharing a first element but differing afterwards. -/
theorem c10_witness :
    normalize_items (.scalar 9) = .ok (.unchanged (.scalar 9)) ∧
    normalize_items (.list []) = .ok (.unchanged (.list [])) ∧
    normalize_items (.list [Item.prim 4, Item.obj [("k", 2)]]) =
      .ok (.unchanged (.list [Item.prim 4, Item.obj [("k", 2)]])) ∧
    Normalized.isUnchanged (normalize_items (.list [Item.obj [], Item.prim 1])) =
      Normalized.isUnchanged (normalize_items (.list [Item.obj []])) :=
  ⟨c10_decision_depends_on_first_element.1 9,
   c10_decision_depends_on_first_element.2.1,
   c10_decision_depends_on_first_element.2.2.1 _ _ rfl,
   c10_decision_depends_on_first_element.2.2.2 (Item.obj []) [Item.prim 1] []⟩

end DataBridges
